import Mathlib

/-!
# Verification of the Gouef router package

Shallow embedding of `src/router.go` (package `router`), a route-registration
and request-dispatch layer above the gin HTTP engine.

Conventions of the embedding:
* Go maps (`map[string]*Route`, `map[int]ErrorHandlerFunc`) become association
  lists with prepend-on-write, first-match-on-read semantics (`lookupA`), which
  gives exactly Go's overwrite behaviour.
* The gin engine is external to the repository; per the spec's collaborator
  contract it is modelled by the registrations it receives: a list of
  `(method token, absolute pattern, handler)` triples plus the current NoRoute
  hook.  Pattern joining (`joinPaths` in gin) is modelled by `pathJoin` from
  the spec's words ("path-join", "no duplicated separators", "empty prefix
  contributes nothing").
* A request context (`gin.Context`) is modelled by its raw path parameters and
  the response it accumulates (status + a flat JSON object body).
* Handlers (`interface{}` values inspected by reflection in
  `createHandlerFunc`) are modelled by a closed datatype `GoHandler` recording
  exactly the reflective facts the source branches on: one-argument handlers,
  two-argument handlers whose second parameter is not a pointer (its reflected
  kind kept for the panic message), and two-argument handlers whose second
  parameter is a pointer (with a flag telling whether the pointee is a
  struct-like type, which the source never inspects).  The external
  `ShouldBindUri` decode step is modelled, per the spec's decode-collaborator
  contract, as an abstract decode function carried by the parameter type.
* Files of this repository other than `router.go` (`route.go`, `routeList.go`,
  `method.go`, the URL generator file) are not under `src/`; their definitions
  are modelled from the spec and are marked `Modelled from the spec:`.
-/

namespace Gouef

/-- Association-list read, modelling a Go map read (`v, ok := m[k]`):
the most recently written binding for a key wins. -/
def lookupA {κ α : Type} [DecidableEq κ] : List (κ × α) → κ → Option α
  | [], _ => none
  | (k, v) :: rest, key => if key = k then some v else lookupA rest key

/-- Split a character list at every `'/'` (same behaviour as Go
`strings.Split(s, "/")` on the pattern strings in play); kernel-friendly
structural recursion. -/
def splitSegs : List Char → List (List Char)
  | [] => [[]]
  | c :: rest =>
    if c = '/' then [] :: splitSegs rest
    else
      match splitSegs rest with
      | [] => [[c]]
      | seg :: segs => (c :: seg) :: segs

/-- Re-join segments with `'/'`, the inverse of `splitSegs`. -/
def joinSegs : List (List Char) → List Char
  | [] => []
  | [seg] => seg
  | seg :: rest => seg ++ '/' :: joinSegs rest

/-- Does the string end with `'/'`? (structural helper) -/
def endsWithSlash (s : String) : Bool :=
  match s.data.getLast? with
  | some c => c = '/'
  | none => false

/-- Does the string start with `'/'`? (structural helper) -/
def startsWithSlash (s : String) : Bool :=
  match s.data with
  | c :: _ => c = '/'
  | [] => false

/-- Drop the first character of a string. -/
def dropFirst (s : String) : String :=
  String.mk (s.data.drop 1)

/-- Modelled from the spec: the path-join used by the underlying server when
composing a group's base path with a relative pattern (gin `joinPaths`, an
external collaborator).  The spec requires: an empty prefix contributes
nothing, and no duplicated separators. -/
def pathJoin (abs rel : String) : String :=
  if rel = "" then abs
  else if abs = "" then rel
  else if abs = "/" then rel
  else
    match endsWithSlash abs, startsWithSlash rel with
    | true, true => abs ++ dropFirst rel
    | true, false => abs ++ rel
    | false, true => abs ++ rel
    | false, false => abs ++ "/" ++ rel

/-- Modelled from the spec: one substitution step of the URL generator (file
not under `src/`): a segment `:name` is replaced by the string form of
`params[name]`; a segment with no matching entry is left as written. -/
def substSeg (params : List (String × String)) (seg : List Char) : List Char :=
  match seg with
  | ':' :: nameChars =>
    match lookupA params (String.mk nameChars) with
    | some v => v.data
    | none => seg
  | _ => seg

/-- Modelled from the spec: placeholder substitution over a whole pattern —
"Substitution scans the pattern for named placeholders (`:segmentName` tokens)
and replaces each with the string form of `params[segmentName]`".  Parameter
values are taken already in their string form. -/
def substPattern (pattern : String) (params : List (String × String)) : String :=
  String.mk (joinSegs ((splitSegs pattern.data).map (substSeg params)))

/-- Every `:name` placeholder segment of the pattern has an entry in `params`
("all placeholders satisfied"). -/
def placeholdersCovered (pattern : String) (params : List (String × String)) : Bool :=
  (splitSegs pattern.data).all fun seg =>
    match seg with
    | ':' :: nameChars => (lookupA params (String.mk nameChars)).isSome
    | _ => true

/-- Modelled from the spec: the closed set of HTTP verbs (`method.go`, not
under `src/`). -/
inductive Method where
  | Get
  | Post
  | Put
  | Patch
  | Delete
  | Head
  | Options
  | Connect
  | Trace
deriving DecidableEq

/-- Modelled from the spec: `Method.String()` serializes a verb to its
wire-protocol token. -/
def Method.toToken : Method → String
  | .Get => "GET"
  | .Post => "POST"
  | .Put => "PUT"
  | .Patch => "PATCH"
  | .Delete => "DELETE"
  | .Head => "HEAD"
  | .Options => "OPTIONS"
  | .Connect => "CONNECT"
  | .Trace => "TRACE"

/-- The request/response state exposed by the engine to handlers
(`*gin.Context`): the raw path parameters of the matched request, and the
response written so far (status plus a flat JSON object body). -/
structure GinContext where
  params : List (String × String)
  status : Nat
  body : List (String × String)
deriving DecidableEq

/-- `c.JSON(status, obj)`: write a JSON response body and set the status. -/
def GinContext.JSON (c : GinContext) (status : Nat) (obj : List (String × String)) : GinContext :=
  { c with status := status, body := obj }

/-- `ErrorHandlerFunc func(c *gin.Context)`: a handler mutates the context. -/
def ErrorHandlerFunc : Type := GinContext → GinContext

/-- A registered handler value (`handler interface{}`), by the reflective
facts `createHandlerFunc` branches on.
* `oneArg`: `handlerType.Kind() != reflect.Func || handlerType.NumIn() != 2` —
  invoked with the context only (Shape A).
* `twoArgNonPtr kind`: two parameters, second of non-pointer reflected `kind`.
* `twoArgPtr elemIsStruct bindUri f`: two parameters, second a pointer;
  `elemIsStruct` records whether the pointee is a struct-like type (never
  inspected by the source); `bindUri` is the external `ShouldBindUri` decode
  behaviour of that parameter type on the raw path parameters, producing
  either a decode-error description or the bound field values. -/
inductive GoHandler where
  | oneArg (f : GinContext → GinContext)
  | twoArgNonPtr (kind : String)
  | twoArgPtr (elemIsStruct : Bool)
      (bindUri : List (String × String) → Except String (List (String × String)))
      (f : GinContext → List (String × String) → GinContext)

/-- Outcome of one dispatch through the wrapper built by `createHandlerFunc`:
either a response context together with the fact whether the original
registered handler ran, or a Go `panic` with its message. -/
inductive DispatchResult where
  | respond (c : GinContext) (originalHandlerRan : Bool)
  | panicked (msg : String)

/-- `createHandlerFunc(handler interface{}) gin.HandlerFunc`
(src/router.go lines 146-176), the Handler Adapter: one-argument handlers are
called with the context; for two-argument handlers, a non-pointer second
parameter panics; otherwise the parameter struct is allocated and bound from
the path parameters (`c.ShouldBindUri`), a decode error short-circuits to a
400 JSON response without calling the handler, and on success the handler is
called with the context and the bound value. -/
def createHandlerFunc (handler : GoHandler) (c : GinContext) : DispatchResult :=
  match handler with
  | .oneArg f => .respond (f c) true
  | .twoArgNonPtr kind =>
      .panicked ("Handler parameter must be a pointer to a struct, got " ++ kind)
  | .twoArgPtr _ bindUri f =>
      match bindUri c.params with
      | .error e => .respond (c.JSON 400 [("error", e)]) false
      | .ok v => .respond (f c v) true

/-- Modelled from the spec: `Route` (`route.go`, not under `src/`): a named,
patterned endpoint bound to one verb and one handler, with an optional
name-indexed children map. -/
inductive Route where
  | mk (name : String) (pattern : String) (handler : GoHandler)
      (method : Method) (children : List (String × Route))

def Route.name : Route → String
  | .mk n _ _ _ _ => n

def Route.pattern : Route → String
  | .mk _ p _ _ _ => p

def Route.handler : Route → GoHandler
  | .mk _ _ h _ _ => h

def Route.method : Route → Method
  | .mk _ _ _ m _ => m

/-- Modelled from the spec: `NewRoute` constructor (`route.go`, not under
`src/`). -/
def NewRoute (name pattern : String) (handler : GoHandler) (method : Method)
    (children : List (String × Route)) : Route :=
  Route.mk name pattern handler method children

/-- Modelled from the spec: `RouteList` (`routeList.go`, not under `src/`):
a tree node grouping routes and child lists under a common path prefix. -/
inductive RouteList where
  | mk (pattern : String) (routes : List Route) (children : List RouteList)

def RouteList.pattern : RouteList → String
  | .mk p _ _ => p

def RouteList.routes : RouteList → List Route
  | .mk _ rs _ => rs

def RouteList.children : RouteList → List RouteList
  | .mk _ _ cs => cs

mutual

/-- All `Route` values appearing anywhere in a `RouteList` tree, as written
by the caller (own patterns, no prefixing). -/
def RouteList.allRoutes : RouteList → List Route
  | .mk _ routes children => routes ++ RouteList.allRoutesList children

/-- `RouteList.allRoutes` over a list of children. -/
def RouteList.allRoutesList : List RouteList → List Route
  | [] => []
  | c :: cs => RouteList.allRoutes c ++ RouteList.allRoutesList cs

end

/-- The underlying gin engine, by what the router hands it: the route
registrations `(method token, absolute pattern, handler)` in registration
order, and the currently installed NoRoute hook. -/
structure GinEngine where
  handlers : List (String × String × GoHandler)
  noRoute : Option ErrorHandlerFunc

/-- `engine.Handle(method, relativePath, handler)`: the engine stores the
registration under the absolute pattern (engine base path is `"/"`). -/
def GinEngine.handle (e : GinEngine) (methodTok relativePath : String)
    (h : GoHandler) : GinEngine :=
  { e with handlers := e.handlers ++ [(methodTok, pathJoin "/" relativePath, h)] }

/-- `createNativeRoute(g gin.RouterGroup, route *Route)` (src/router.go lines
141-143): registers the route on the group, i.e. under the group's base path
joined with the route's own pattern. -/
def createNativeRoute (e : GinEngine) (basePath : String) (route : Route) : GinEngine :=
  { e with
    handlers := e.handlers ++
      [(route.method.toToken, pathJoin basePath route.pattern, route.handler)] }

/-- The `Router` aggregate (src/router.go lines 23-30).  The `middlewares`
and `mode` fields take no part in any behaviour of the source and are
omitted. -/
structure Router where
  engine : GinEngine
  routes : List (String × Route)
  errorHandlers : List (Nat × ErrorHandlerFunc)
  defaultHandler : ErrorHandlerFunc

/-- The initial default error handler installed by `NewRouter`
(src/router.go lines 40-46). -/
def initialDefaultHandler : ErrorHandlerFunc := fun c =>
  c.JSON c.status
    [("error", "An error occurred"),
     ("description", "No specific handler defined for this status")]

/-- `NewRouter()` (src/router.go lines 33-49). -/
def NewRouter : Router :=
  { engine := { handlers := [], noRoute := none }
    routes := []
    errorHandlers := []
    defaultHandler := initialDefaultHandler }

/-- `SetDefaultErrorHandler` (src/router.go lines 51-58): replaces the
default handler and installs the handler as the engine's NoRoute hook. -/
def Router.SetDefaultErrorHandler (r : Router) (handler : ErrorHandlerFunc) : Router :=
  { r with
    defaultHandler := handler
    engine := { r.engine with noRoute := some handler } }

/-- `SetErrorHandler` (src/router.go lines 75-85): installs a handler for an
exact status; for status 404 it additionally becomes the engine's NoRoute
hook. -/
def Router.SetErrorHandler (r : Router) (status : Nat) (handler : ErrorHandlerFunc) : Router :=
  let r1 :=
    if status = 404 then
      { r with engine := { r.engine with noRoute := some handler } }
    else r
  { r1 with errorHandlers := (status, handler) :: r1.errorHandlers }

/-- `ErrorHandlerMiddleware` (src/router.go lines 88-102): run the rest of
the chain (`c.Next()`), then inspect the final status; for a status of 400 or
more invoke the status-specific handler when one exists, otherwise the
default handler. -/
def Router.ErrorHandlerMiddleware (r : Router) (next : GinContext → GinContext)
    (c : GinContext) : GinContext :=
  let c1 := next c
  if 400 ≤ c1.status then
    match lookupA r.errorHandlers c1.status with
    | some h => h c1
    | none => r.defaultHandler c1
  else c1

/-- `AddRoute` (src/router.go lines 194-200): stores a fresh `Route` under
`name` in the registry (Go map write, i.e. overwrite), registers
`(method, pattern, wrapped handler)` with the engine, and returns the router
for chaining (in this pure embedding, returning the updated state). -/
def Router.AddRoute (r : Router) (name pattern : String) (handler : GoHandler)
    (method : Method) : Router :=
  { r with
    routes := (name, NewRoute name pattern handler method []) :: r.routes
    engine := r.engine.handle method.toToken pattern handler }

/-- The `for _, route := range l.routes` loop of `AddRouteList` when the list
has an empty pattern (no group): each route goes through `AddRoute`. -/
def addPlainRoutes (r : Router) : List Route → Router
  | [] => r
  | route :: rest =>
      addPlainRoutes (r.AddRoute route.name route.pattern route.handler route.method) rest

/-- The `for _, route := range l.routes` loop of `AddRouteList` when the list
has a non-empty pattern: the route is registered on the group
(`createNativeRoute`) and stored verbatim in the registry
(`r.routes[route.name] = route`). -/
def addGroupRoutes (basePath : String) (r : Router) : List Route → Router
  | [] => r
  | route :: rest =>
      addGroupRoutes basePath
        { r with
          engine := createNativeRoute r.engine basePath route
          routes := (route.name, route) :: r.routes }
        rest

mutual

/-- `AddRouteList` (src/router.go lines 116-138): when the list's pattern is
non-empty a gin group is created (`r.router.Group(l.pattern)`, base path
`pathJoin "/" l.pattern`) and the direct routes are registered on it;
otherwise the direct routes go through `AddRoute`.  Children are then handled
by the recursive call `r.AddRouteList(child)` — on the router itself, not on
the group. -/
def Router.AddRouteList (r : Router) (l : RouteList) : Router :=
  match l with
  | .mk pat routes children =>
    let r1 :=
      if pat = "" then addPlainRoutes r routes
      else addGroupRoutes (pathJoin "/" pat) r routes
    Router.addRouteListChildren r1 children

/-- The `for _, child := range l.children { r.AddRouteList(child) }` loop. -/
def Router.addRouteListChildren (r : Router) : List RouteList → Router
  | [] => r
  | c :: cs => Router.addRouteListChildren (Router.AddRouteList r c) cs

end

/-- Modelled from the spec: the package-level URL generator
`GenerateUrlByPattern(pattern, params)` (its file is not under `src/`):
substitutes every `:name` placeholder with the string form of `params[name]`
and reports no error (an uncovered placeholder is left as written, one of the
two policies the spec admits). -/
def GenerateUrlByPattern (pattern : String) (params : List (String × String)) :
    String × Option String :=
  (substPattern pattern params, none)

/-- The method `Router.GenerateUrlByPattern` (src/router.go lines 395-397):
plain delegation to the package-level generator. -/
def Router.GenerateUrlByPattern (r : Router) (pattern : String)
    (params : List (String × String)) : String × Option String :=
  Gouef.GenerateUrlByPattern pattern params

/-- `GenerateUrlByName` (src/router.go lines 385-393): look the name up in
the registry; when absent return an empty URL and the route-not-found error
value (`errors.New(...)` — an error return, never a panic; this embedding is
a total function); when present delegate to `GenerateUrlByPattern` on the
stored route's pattern. -/
def Router.GenerateUrlByName (r : Router) (name : String)
    (params : List (String × String)) : String × Option String :=
  match lookupA r.routes name with
  | none => ("", some ("route with name " ++ name ++ " not found"))
  | some route => r.GenerateUrlByPattern route.pattern params

/-- The NoRoute configuration `Run` performs before listening
(src/router.go lines 409-420): the 404-specific handler when one is
registered, otherwise a built-in fallback responding 404 with body
`{"error": "Custom 404"}`. -/
def Router.runSetup (r : Router) : Router :=
  match lookupA r.errorHandlers 404 with
  | some h => { r with engine := { r.engine with noRoute := some h } }
  | none =>
      { r with
        engine :=
          { r.engine with
            noRoute := some (fun c => c.JSON 404 [("error", "Custom 404")]) } }

/-- Serving a request whose path matches no registered route: the engine
invokes its NoRoute hook (the `none` case is gin's own built-in 404 page,
never reached once `runSetup`, `SetErrorHandler 404` or
`SetDefaultErrorHandler` has run). -/
def Router.serveNoRoute (r : Router) (c : GinContext) : GinContext :=
  match r.engine.noRoute with
  | some h => h c
  | none => { c with status := 404, body := [("message", "404 page not found")] }

/-- What `Run` surfaces to its caller about a listener failure
(src/router.go lines 422-425): `Run` returns nothing and contains no log
call; the engine's error is consumed by `if err != nil { return }`. -/
def Router.runSurfacedError (r : Router) (engineRunError : Option String) :
    Option String :=
  match engineRunError with
  | some _ => none
  | none => none

/-! ### Concrete fixtures used to evaluate the embedding -/

/-- A Shape-A handler leaving the context unchanged. -/
def hId : GoHandler := .oneArg (fun c => c)

/-- A fresh request context: no path parameters, nothing written yet (gin
reports status 200 for an untouched response writer). -/
def ctx0 : GinContext := { params := [], status := 200, body := [] }

/-- A route named `deep` with pattern `/c`, to be nested two levels down. -/
def routeDeep : Route := Route.mk "deep" "/c" hId .Get []

/-- A child route list: prefix `/b`, directly owning `routeDeep`. -/
def innerList : RouteList := .mk "/b" [routeDeep] []

/-- A root route list: prefix `/a`, one child `innerList`, so `routeDeep`
sits under the ancestor prefixes `/a`, `/b`. -/
def outerList : RouteList := .mk "/a" [] [innerList]

/-- A router with one registered route `user:detail` at `/users/:id`. -/
def routerC2 : Router := NewRouter.AddRoute "user:detail" "/users/:id" hId .Get

/-- A `ShouldBindUri` behaviour that always fails, as for a request missing a
`binding:"required"` field. -/
def failBind : List (String × String) → Except String (List (String × String)) :=
  fun _ => .error "Field validation for ID failed on the required tag"

/-- A Shape-B handler body echoing the bound fields. -/
def echoB : GinContext → List (String × String) → GinContext :=
  fun c v => c.JSON 200 v

/-- A `ShouldBindUri` behaviour that succeeds with the raw parameters. -/
def bindOk : List (String × String) → Except String (List (String × String)) :=
  fun ps => .ok ps

/-- A Shape-B handler body answering 200. -/
def okB : GinContext → List (String × String) → GinContext :=
  fun c _ => c.JSON 200 [("ok", "true")]

/-- A two-argument handler whose second parameter is a pointer to a
non-struct type (for example `*int`): the reflective data `createHandlerFunc`
sees is a pointer-kinded second parameter, so `elemIsStruct := false`. -/
def ptrToNonStructHandler : GoHandler := .twoArgPtr false bindOk okB

/-- A status-500 error handler. -/
def h500 : ErrorHandlerFunc := fun c => c.JSON 500 [("error", "Custom 500")]

/-- A router with a specific handler for status 500 only. -/
def routerC4 : Router := NewRouter.SetErrorHandler 500 h500

/-- A downstream chain that completes the request with status 500. -/
def nextC4 : GinContext → GinContext := fun c => { c with status := 500 }

/-- A distinctive default error handler. -/
def defaultHandlerC5 : ErrorHandlerFunc :=
  fun c => c.JSON 418 [("error", "from the default handler")]

/-- A router on which only `SetDefaultErrorHandler` was called, after `Run`'s
NoRoute setup. -/
def routerC5 : Router := (NewRouter.SetDefaultErrorHandler defaultHandlerC5).runSetup

/-- A distinctive 404 handler. -/
def h404W : ErrorHandlerFunc := fun c => c.JSON 404 [("error", "mine")]

/-- A route named `prod` with pattern `/p/:id`. -/
def routeProd : Route := Route.mk "prod" "/p/:id" hId .Get []

/-- A route list with non-empty prefix `/v1` owning `routeProd`. -/
def listV1 : RouteList := .mk "/v1" [routeProd] []

end Gouef

/-! ## Theorems -/

namespace Gouef

/-- When the name is present in the registry, `GenerateUrlByName` delegates
to the URL generator on the stored route's own pattern. -/
theorem genUrlByName_of_lookup (r : Router) (name : String)
    (params : List (String × String)) (rt : Route)
    (h : lookupA r.routes name = some rt) :
    r.GenerateUrlByName name params = (substPattern rt.pattern params, none) := by
  unfold Router.GenerateUrlByName
  rw [h]
  rfl

/-- C2: For every registered route name and every params mapping that
supplies a value for each `:x` placeholder of the route's pattern,
`GenerateUrlByName(name, params)` returns, with no error, the route's pattern
with each `:x` placeholder replaced by the string form of `params[x]`. -/
theorem generateUrlByName_substitutes (r : Router) (name : String)
    (params : List (String × String)) (rt : Route)
    (h1 : lookupA r.routes name = some rt)
    (_h2 : placeholdersCovered rt.pattern params = true) :
    r.GenerateUrlByName name params = (substPattern rt.pattern params, none) :=
  genUrlByName_of_lookup r name params rt h1

/-- Witness for C2 at a concrete registered route and full params. -/
theorem generateUrlByName_substitutes_witness :
    Router.GenerateUrlByName routerC2 "user:detail" [("id", "42")] = ("/users/42", none) :=
  (generateUrlByName_substitutes routerC2 "user:detail" [("id", "42")]
    (NewRoute "user:detail" "/users/:id" hId .Get []) rfl (by decide)).trans (by decide)

/-- C9: For every name absent from the routes registry,
`GenerateUrlByName(name, params)` returns an empty URL and the
route-not-found error value (an error return of `Router.GenerateUrlByName`,
which is a total function — it never panics). -/
theorem generateUrlByName_routeNotFound (r : Router) (name : String)
    (params : List (String × String))
    (h : lookupA r.routes name = none) :
    r.GenerateUrlByName name params
      = ("", some ("route with name " ++ name ++ " not found")) := by
  unfold Router.GenerateUrlByName
  rw [h]

/-- Witness for C9 at a concrete unregistered name. -/
theorem generateUrlByName_routeNotFound_witness :
    Router.GenerateUrlByName NewRouter "missing" []
      = ("", some "route with name missing not found") :=
  (generateUrlByName_routeNotFound NewRouter "missing" [] rfl).trans (by decide)

/-- C3: For every Shape-B handler and every request whose path parameters
fail to decode into the parameter struct, the wrapped handler responds with
status 400 carrying the decode-failure description and the original handler
is never invoked. -/
theorem shapeB_decode_failure_short_circuits (elemIsStruct : Bool)
    (bindUri : List (String × String) → Except String (List (String × String)))
    (f : GinContext → List (String × String) → GinContext)
    (c : GinContext) (e : String)
    (h : bindUri c.params = Except.error e) :
    createHandlerFunc (GoHandler.twoArgPtr elemIsStruct bindUri f) c
      = DispatchResult.respond (c.JSON 400 [("error", e)]) false := by
  simp [createHandlerFunc, h]

/-- Witness for C3 at a concrete always-failing decode. -/
theorem shapeB_decode_failure_short_circuits_witness :
    createHandlerFunc (GoHandler.twoArgPtr true failBind echoB) ctx0
      = DispatchResult.respond
          (ctx0.JSON 400 [("error", "Field validation for ID failed on the required tag")])
          false :=
  shapeB_decode_failure_short_circuits true failBind echoB ctx0
    "Field validation for ID failed on the required tag" rfl

/-- C6 (code bug): `Router.Run` does not surface the listener error — the
engine's error is consumed by `if err != nil { return }`, and `Run` neither
returns nor logs anything, contradicting the spec's requirement that the
failure be surfaced and never silently discarded. -/
theorem run_discards_listener_error :
    Router.runSurfacedError NewRouter (some "listen tcp :80: bind: address already in use")
      = none := rfl

/-- C7: After two successive `AddRoute` calls with the same name and
different patterns, the registry maps the name to exactly the route of the
later call, and the chained calls accumulated both engine registrations in
order (each call returning the updated router for chaining). -/
theorem addRoute_lastWriteWins (r : Router) (n p1 p2 : String)
    (g1 g2 : GoHandler) (m1 m2 : Method) (_hp : p1 ≠ p2) :
    (lookupA ((r.AddRoute n p1 g1 m1).AddRoute n p2 g2 m2).routes n
        = some (NewRoute n p2 g2 m2 []))
    ∧ ((r.AddRoute n p1 g1 m1).AddRoute n p2 g2 m2).engine.handlers
        = r.engine.handlers
            ++ [(m1.toToken, pathJoin "/" p1, g1), (m2.toToken, pathJoin "/" p2, g2)] := by
  constructor
  · simp [Router.AddRoute, lookupA]
  · simp [Router.AddRoute, GinEngine.handle]

/-- Witness for C7 at a concrete duplicate registration. -/
theorem addRoute_lastWriteWins_witness :
    (lookupA ((NewRouter.AddRoute "dup" "/a" hId .Get).AddRoute "dup" "/b" hId .Get).routes "dup"
        = some (NewRoute "dup" "/b" hId .Get []))
    ∧ ((NewRouter.AddRoute "dup" "/a" hId .Get).AddRoute "dup" "/b" hId .Get).engine.handlers
        = NewRouter.engine.handlers
            ++ [(Method.toToken .Get, pathJoin "/" "/a", hId),
                (Method.toToken .Get, pathJoin "/" "/b", hId)] :=
  addRoute_lastWriteWins NewRouter "dup" "/a" "/b" hId hId .Get .Get (by decide)

/-- C4: The error-interception middleware first lets the request complete
(`c.Next()`); on a final status of at least 400 it invokes the handler
registered for that exact status when one exists and the default handler
otherwise, and on a status below 400 it invokes no error handler. -/
theorem errorHandlerMiddleware_behavior (r : Router)
    (next : GinContext → GinContext) (c : GinContext) :
    (∀ h : ErrorHandlerFunc, 400 ≤ (next c).status →
        lookupA r.errorHandlers (next c).status = some h →
        r.ErrorHandlerMiddleware next c = h (next c))
    ∧ (400 ≤ (next c).status →
        lookupA r.errorHandlers (next c).status = none →
        r.ErrorHandlerMiddleware next c = r.defaultHandler (next c))
    ∧ ((next c).status < 400 → r.ErrorHandlerMiddleware next c = next c) := by
  refine ⟨?_, ?_, ?_⟩
  · intro h hge hlook
    simp [Router.ErrorHandlerMiddleware, hge, hlook]
  · intro hge hlook
    simp [Router.ErrorHandlerMiddleware, hge, hlook]
  · intro hlt
    simp [Router.ErrorHandlerMiddleware, Nat.not_le.mpr hlt]

/-- Witness for C4: a request completing with status 500 on a router with a
specific 500 handler is answered by that handler. -/
theorem errorHandlerMiddleware_behavior_witness :
    Router.ErrorHandlerMiddleware routerC4 nextC4 ctx0 = h500 (nextC4 ctx0) :=
  (errorHandlerMiddleware_behavior routerC4 nextC4 ctx0).1 h500 (by decide) rfl

/-- C5 (counterexample): on a router with no 404-specific handler whose
default handler was set by `SetDefaultErrorHandler`, a request matching no
route is, after `Run`'s setup, not answered by that default handler —
`Run` overwrites the NoRoute hook with its built-in fallback. -/
theorem noRoute_not_default_counterexample :
    Router.serveNoRoute routerC5 ctx0 ≠ defaultHandlerC5 ctx0 := by decide

/-- C5 (amended): after `Run`'s setup, a request matching no route is
answered verbatim by the handler that `SetErrorHandler(404, h)` registered;
when no 404-specific handler is registered it is answered by `Run`'s
built-in fallback, responding 404 with body `error: Custom 404` — not by the
default handler. -/
theorem noRoute_dispatch_after_run (r : Router) (h : ErrorHandlerFunc)
    (c : GinContext) :
    ((r.SetErrorHandler 404 h).runSetup.serveNoRoute c = h c)
    ∧ (lookupA r.errorHandlers 404 = none →
        r.runSetup.serveNoRoute c = c.JSON 404 [("error", "Custom 404")]) := by
  constructor
  · simp [Router.SetErrorHandler, Router.runSetup, Router.serveNoRoute, lookupA]
  · intro hn
    simp [Router.runSetup, hn, Router.serveNoRoute]

/-- Witness for C5's amended statement at a fresh router. -/
theorem noRoute_dispatch_after_run_witness :
    ((NewRouter.SetErrorHandler 404 h404W).runSetup.serveNoRoute ctx0 = h404W ctx0)
    ∧ (NewRouter.runSetup.serveNoRoute ctx0 = ctx0.JSON 404 [("error", "Custom 404")]) :=
  ⟨(noRoute_dispatch_after_run NewRouter h404W ctx0).1,
   (noRoute_dispatch_after_run NewRouter h404W ctx0).2 rfl⟩

/-- C8 (code bug): `createHandlerFunc` only panics when the second parameter
is not a pointer at all.  A two-argument handler whose second parameter is a
pointer to a non-struct type is dispatched with no fatal abort — here the
decode step accepts and the original handler runs — while a non-pointer
second parameter does panic with the descriptive message.  So "not a pointer
to a struct-like type" is not the condition the code aborts on. -/
theorem handlerShape_check_only_rejects_non_pointers :
    (createHandlerFunc ptrToNonStructHandler ctx0
        = DispatchResult.respond (ctx0.JSON 200 [("ok", "true")]) true)
    ∧ (createHandlerFunc (GoHandler.twoArgNonPtr "int") ctx0
        = DispatchResult.panicked "Handler parameter must be a pointer to a struct, got int") :=
  ⟨rfl, rfl⟩

/-- C1 (code bug): flattening `outerList` — root prefix `/a`, child prefix
`/b`, route pattern `/c` — registers the route under `/b/c`: the recursion
`r.AddRouteList(child)` restarts from the router, so every ancestor prefix
except the immediate parent's is dropped, where the claim requires the
path-join `/a/b/c` of all ancestor prefixes. -/
theorem addRouteList_drops_ancestor_prefixes :
    ((NewRouter.AddRouteList outerList).engine.handlers.map (fun t => t.2.1) = ["/b/c"])
    ∧ "/a/b/c" ∉ (NewRouter.AddRouteList outerList).engine.handlers.map (fun t => t.2.1) := by
  decide

/-- Any registry binding produced by the empty-prefix loop of `AddRouteList`
is either an old binding or carries the own pattern of a listed route. -/
theorem lookupA_addPlainRoutes (rs : List Route) :
    ∀ (r : Router) (name : String) (rt : Route),
    lookupA (addPlainRoutes r rs).routes name = some rt →
    lookupA r.routes name = some rt ∨
      ∃ src, src ∈ rs ∧ src.name = name ∧ rt.pattern = src.pattern := by
  induction rs with
  | nil => intro r name rt h; exact Or.inl h
  | cons route rest ih =>
    intro r name rt h
    rcases ih _ name rt h with h1 | ⟨src, hm, hn, hp⟩
    · by_cases he : name = route.name
      · simp [Router.AddRoute, lookupA, he] at h1
        refine Or.inr ⟨route, List.mem_cons_self _ _, he.symm, ?_⟩
        rw [← h1]
        rfl
      · simp [Router.AddRoute, lookupA, he] at h1
        exact Or.inl h1
    · exact Or.inr ⟨src, List.mem_cons_of_mem _ hm, hn, hp⟩

/-- Any registry binding produced by the group loop of `AddRouteList` is
either an old binding or carries the own pattern of a listed route (the route
is stored verbatim, the group prefix touches only the engine). -/
theorem lookupA_addGroupRoutes (rs : List Route) :
    ∀ (basePath : String) (r : Router) (name : String) (rt : Route),
    lookupA (addGroupRoutes basePath r rs).routes name = some rt →
    lookupA r.routes name = some rt ∨
      ∃ src, src ∈ rs ∧ src.name = name ∧ rt.pattern = src.pattern := by
  induction rs with
  | nil => intro basePath r name rt h; exact Or.inl h
  | cons route rest ih =>
    intro basePath r name rt h
    rcases ih basePath _ name rt h with h1 | ⟨src, hm, hn, hp⟩
    · by_cases he : name = route.name
      · simp [lookupA, he] at h1
        exact Or.inr ⟨route, List.mem_cons_self _ _, he.symm, by rw [← h1]⟩
      · simp [lookupA, he] at h1
        exact Or.inl h1
    · exact Or.inr ⟨src, List.mem_cons_of_mem _ hm, hn, hp⟩

mutual

/-- Over a whole `RouteList` tree, `AddRouteList` only ever stores routes
under their own pattern: a registry binding after the call is an old binding
or carries the own pattern of some route of the tree. -/
theorem lookupA_AddRouteList (l : RouteList) (r : Router) (name : String) (rt : Route)
    (h : lookupA (r.AddRouteList l).routes name = some rt) :
    lookupA r.routes name = some rt ∨
      ∃ src, src ∈ l.allRoutes ∧ src.name = name ∧ rt.pattern = src.pattern :=
  match l with
  | .mk pat routes children => by
    rw [Router.AddRouteList] at h
    rcases lookupA_addRouteListChildren children _ name rt h with h1 | ⟨src, hm, hn, hp⟩
    · by_cases hp0 : pat = ""
      · rw [if_pos hp0] at h1
        rcases lookupA_addPlainRoutes routes r name rt h1 with h2 | ⟨src, hm, hn, hpp⟩
        · exact Or.inl h2
        · exact Or.inr ⟨src, by simp [RouteList.allRoutes, List.mem_append, hm], hn, hpp⟩
      · rw [if_neg hp0] at h1
        rcases lookupA_addGroupRoutes routes _ r name rt h1 with h2 | ⟨src, hm, hn, hpp⟩
        · exact Or.inl h2
        · exact Or.inr ⟨src, by simp [RouteList.allRoutes, List.mem_append, hm], hn, hpp⟩
    · exact Or.inr ⟨src, by simp [RouteList.allRoutes, List.mem_append, hm], hn, hp⟩

/-- `lookupA_AddRouteList`, for the children loop. -/
theorem lookupA_addRouteListChildren (ls : List RouteList) (r : Router) (name : String) (rt : Route)
    (h : lookupA (Router.addRouteListChildren r ls).routes name = some rt) :
    lookupA r.routes name = some rt ∨
      ∃ src, src ∈ RouteList.allRoutesList ls ∧ src.name = name ∧ rt.pattern = src.pattern :=
  match ls with
  | [] => Or.inl h
  | c :: cs => by
    rw [Router.addRouteListChildren] at h
    rcases lookupA_addRouteListChildren cs _ name rt h with h1 | ⟨src, hm, hn, hp⟩
    · rcases lookupA_AddRouteList c r name rt h1 with h2 | ⟨src, hm, hn, hp⟩
      · exact Or.inl h2
      · exact Or.inr ⟨src, by simp [RouteList.allRoutesList, List.mem_append, hm], hn, hp⟩
    · exact Or.inr ⟨src, by simp [RouteList.allRoutesList, List.mem_append, hm], hn, hp⟩

end

/-- The empty-prefix loop only appends engine registrations. -/
theorem handlers_addPlainRoutes_mono (rs : List Route) :
    ∀ (r : Router) (x : String × String × GoHandler),
    x ∈ r.engine.handlers → x ∈ (addPlainRoutes r rs).engine.handlers := by
  induction rs with
  | nil => intro r x h; exact h
  | cons route rest ih =>
    intro r x h
    exact ih _ x (by simp [Router.AddRoute, GinEngine.handle, h])

/-- The group loop only appends engine registrations. -/
theorem handlers_addGroupRoutes_mono (rs : List Route) :
    ∀ (basePath : String) (r : Router) (x : String × String × GoHandler),
    x ∈ r.engine.handlers → x ∈ (addGroupRoutes basePath r rs).engine.handlers := by
  induction rs with
  | nil => intro basePath r x h; exact h
  | cons route rest ih =>
    intro basePath r x h
    exact ih basePath _ x (by simp [createNativeRoute, h])

/-- The group loop registers every listed route with the engine under the
group's base path joined with the route's own pattern. -/
theorem addGroupRoutes_registers (rs : List Route) :
    ∀ (basePath : String) (r : Router) (rt2 : Route), rt2 ∈ rs →
    (rt2.method.toToken, pathJoin basePath rt2.pattern, rt2.handler)
      ∈ (addGroupRoutes basePath r rs).engine.handlers := by
  induction rs with
  | nil => intro basePath r rt2 h; exact absurd h (List.not_mem_nil _)
  | cons route rest ih =>
    intro basePath r rt2 h
    rcases List.mem_cons.mp h with he | hm
    · subst he
      exact handlers_addGroupRoutes_mono rest basePath _ _ (by simp [createNativeRoute])
    · exact ih basePath _ rt2 hm

mutual

/-- `AddRouteList` only appends engine registrations. -/
theorem handlers_AddRouteList_mono (l : RouteList) (r : Router)
    (x : String × String × GoHandler) (h : x ∈ r.engine.handlers) :
    x ∈ (r.AddRouteList l).engine.handlers :=
  match l with
  | .mk pat routes children => by
    rw [Router.AddRouteList]
    apply handlers_addRouteListChildren_mono children
    by_cases hp0 : pat = ""
    · rw [if_pos hp0]; exact handlers_addPlainRoutes_mono routes r x h
    · rw [if_neg hp0]; exact handlers_addGroupRoutes_mono routes _ r x h

/-- `handlers_AddRouteList_mono`, for the children loop. -/
theorem handlers_addRouteListChildren_mono (ls : List RouteList) (r : Router)
    (x : String × String × GoHandler) (h : x ∈ r.engine.handlers) :
    x ∈ (Router.addRouteListChildren r ls).engine.handlers :=
  match ls with
  | [] => h
  | c :: cs => by
    rw [Router.addRouteListChildren]
    exact handlers_addRouteListChildren_mono cs _ x (handlers_AddRouteList_mono c r x h)

end

/-- C10: A route added through `AddRouteList` is stored in the registry with
its own un-prefixed pattern (any stored binding carries the own pattern of a
tree route), so `GenerateUrlByName` builds the URL from the un-prefixed
pattern, while a direct route of a non-empty-prefix list is dispatched at the
prefixed path registered with the engine. -/
theorem addRouteList_registry_keeps_own_pattern (r : Router) (l : RouteList)
    (name : String) (rt : Route) (params : List (String × String))
    (h : lookupA (r.AddRouteList l).routes name = some rt) :
    (lookupA r.routes name = some rt ∨
       ∃ src, src ∈ l.allRoutes ∧ src.name = name ∧ rt.pattern = src.pattern)
    ∧ (r.AddRouteList l).GenerateUrlByName name params
        = (substPattern rt.pattern params, none)
    ∧ (∀ rt2, rt2 ∈ l.routes → l.pattern ≠ "" →
         (rt2.method.toToken, pathJoin (pathJoin "/" l.pattern) rt2.pattern, rt2.handler)
           ∈ (r.AddRouteList l).engine.handlers) := by
  refine ⟨lookupA_AddRouteList l r name rt h, genUrlByName_of_lookup _ name params rt h, ?_⟩
  intro rt2 hm hne
  cases l with
  | mk pat routes children =>
    rw [Router.AddRouteList]
    apply handlers_addRouteListChildren_mono children
    rw [if_neg (by simpa [RouteList.pattern] using hne)]
    exact addGroupRoutes_registers routes _ r rt2 (by simpa [RouteList.routes] using hm)

/-- Witness for C10: the route `prod` (`/p/:id`) under prefix `/v1` is stored
un-prefixed, generates `/p/42`, and is dispatched at `/v1/p/:id`. -/
theorem addRouteList_registry_keeps_own_pattern_witness :
    (lookupA NewRouter.routes "prod" = some routeProd ∨
       ∃ src, src ∈ listV1.allRoutes ∧ src.name = "prod" ∧ routeProd.pattern = src.pattern)
    ∧ (NewRouter.AddRouteList listV1).GenerateUrlByName "prod" [("id", "42")]
        = (substPattern routeProd.pattern [("id", "42")], none)
    ∧ (∀ rt2, rt2 ∈ listV1.routes → listV1.pattern ≠ "" →
         (rt2.method.toToken, pathJoin (pathJoin "/" listV1.pattern) rt2.pattern, rt2.handler)
           ∈ (NewRouter.AddRouteList listV1).engine.handlers) :=
  addRouteList_registry_keeps_own_pattern NewRouter listV1 "prod" routeProd [("id", "42")] rfl

end Gouef
